import Mathlib

/-
Verification of the imessage-ai web client against its design specification.

The definitions below are a shallow embedding of the client code:
- src/web/src/app/page.tsx            (chat page: Message, sendMessage, sources rendering)
- src/web/src/app/search/page.tsx     (search page: search, renderSearch, highlightQuery)
- src/web/src/app/conversations/page.tsx (conversations page: fetchConversations)
- src/PRD.md                          (chat.db date conversion formula)

Asynchronous fetch calls are modelled by passing the call's outcome explicitly:
a `FetchOutcome` collapses every failure path of the original try/catch
(network throw, non-OK status, JSON parse failure) into one `fail` case, and the
success case carries the parsed JSON payload.  React state updates are modelled
as explicit state-passing on record types.
-/

namespace IMessageWeb

/-- Chat message role, from the `Message` interface of page.tsx (lines 5-13). -/
inductive Role where
  | user
  | assistant
deriving DecidableEq

/-- Citation source attached to an assistant message (page.tsx lines 8-12). -/
structure Source where
  sender : String
  date : String
  conversation : String
deriving DecidableEq

/-- One chat message (page.tsx lines 5-13); `sources` is optional exactly as in
the TypeScript interface. -/
structure Message where
  role : Role
  content : String
  sources : Option (List Source)
deriving DecidableEq

/-- Chat page component state: the `messages`, `input` and `isLoading` React
state hooks of page.tsx (lines 16-18). -/
structure ChatState where
  messages : List Message
  input : String
  isLoading : Bool
deriving DecidableEq

/-- Body of the POST /chat request (page.tsx lines 43-46). -/
structure ChatRequest where
  query : String
  conversation_history : List Message
deriving DecidableEq

/-- Outcome of the fetch to the backend: `ok` carries the parsed JSON payload
(`data.response`, `data.sources`); `fail` covers a thrown network error, a
non-OK status (line 49-51) and a JSON parse failure alike, since all of them
land in the same catch block. -/
inductive FetchOutcome where
  | ok (response : String) (sources : Option (List Source))
  | fail
deriving DecidableEq

/-- Drops leading whitespace characters. -/
def trimLeftChars : List Char → List Char
  | [] => []
  | c :: rest => if c.isWhitespace then trimLeftChars rest else c :: rest

/-- JavaScript's `String.prototype.trim`: strip whitespace from both ends.
Modelled structurally over the character list. -/
def jsTrim (s : String) : String :=
  String.mk ((trimLeftChars ((trimLeftChars s.data).reverse)).reverse)

/-- The fixed error text appended by the catch block (page.tsx line 62). -/
def chatErrorText : String :=
  "Sorry, I encountered an error. Make sure the FastAPI server is running on port 8000."

/-- The user message appended before the fetch (page.tsx line 34). -/
def mkUserMessage (c : String) : Message :=
  { role := Role.user, content := c, sources := none }

/-- The assistant message appended when the turn completes: on success the
server's answer with its sources (lines 54-58), on failure the fixed error
text (lines 60-63). -/
def assistantMessageOf : FetchOutcome → Message
  | FetchOutcome.ok resp srcs => { role := Role.assistant, content := resp, sources := srcs }
  | FetchOutcome.fail => { role := Role.assistant, content := chatErrorText, sources := none }

/-- First, synchronous half of `sendMessage` (page.tsx lines 29-47): the guard
`if (!input.trim() || isLoading) return`, the optimistic append of the user
message, setting `isLoading`, and the construction of the request body.  The
request's `conversation_history` is `messages.slice(-10)` where `messages` is
the state captured by the closure, i.e. the list BEFORE the user-message
append. -/
def startSend (s : ChatState) : ChatState × Option ChatRequest :=
  if jsTrim s.input == "" || s.isLoading then (s, none)
  else
    ({ messages := s.messages ++ [mkUserMessage (jsTrim s.input)], input := "", isLoading := true },
     some { query := jsTrim s.input,
            conversation_history := s.messages.drop (s.messages.length - 10) })

/-- Second half of `sendMessage` (page.tsx lines 49-66): once the fetch
resolves, append the assistant message (answer or error) and clear
`isLoading` in the finally block. -/
def finishSend (s : ChatState) (o : FetchOutcome) : ChatState :=
  { messages := s.messages ++ [assistantMessageOf o], input := s.input, isLoading := false }

/-- A whole `sendMessage` turn (page.tsx lines 29-67), given the outcome of the
backend call.  Returns the final state and the request that was issued, if
any. -/
def sendMessage (s : ChatState) (o : FetchOutcome) : ChatState × Option ChatRequest :=
  match startSend s with
  | (_, none) => (s, none)
  | (s1, some r) => (finishSend s1 o, some r)

/-- The sequence of states the UI can observe during one `sendMessage` turn:
the state before the call, the state after the optimistic user append (while
the fetch is pending), and the final state.  A no-op submission observes only
the unchanged state. -/
def sendMessageTrace (s : ChatState) (o : FetchOutcome) : List ChatState :=
  match startSend s with
  | (_, none) => [s]
  | (s1, some _) => [s, s1, finishSend s1 o]

/-- Initial chat page state (page.tsx lines 16-18). -/
def initialChatState : ChatState :=
  { messages := [], input := "", isLoading := false }

/-- One user interaction: type a question into the input box, then submit it,
with the given backend outcome. -/
def chatStep (s : ChatState) (ev : String × FetchOutcome) : ChatState :=
  (sendMessage { messages := s.messages, input := ev.1, isLoading := s.isLoading } ev.2).1

/-- A chat session: a sequence of interactions starting from the initial
state. -/
def chatSession (events : List (String × FetchOutcome)) : ChatState :=
  events.foldl chatStep initialChatState

/-- Checks that a role sequence is user, assistant, user, assistant, ... -/
def alternatesFromUser : List Role → Bool
  | [] => true
  | Role.user :: Role.assistant :: rest => alternatesFromUser rest
  | _ => false

/-- The text of one rendered citation line (page.tsx line 112):
sender, date and conversation separated by bullets. -/
def renderedCitation (src : Source) : String :=
  src.sender ++ " • " ++ src.date ++ " • " ++ src.conversation

/-- The citation block rendered under an assistant message (page.tsx lines
104-117): rendered only when `message.sources && message.sources.length > 0`,
one line per source. -/
def renderSources (m : Message) : Option (List String) :=
  match m.sources with
  | some srcs => if 0 < srcs.length then some (srcs.map renderedCitation) else none
  | none => none

/- ---------------------------------------------------------------------------
Search page (src/web/src/app/search/page.tsx)
--------------------------------------------------------------------------- -/

/-- One search hit, from the `SearchResult` interface (search/page.tsx lines
5-11).  The JSON number `similarity_score` is modelled as an exact rational. -/
structure SearchResult where
  content : String
  sender : String
  date : String
  conversation : String
  similarity_score : Rat
deriving DecidableEq

/-- Search page component state: the `query`, `results`, `isLoading` and
`hasSearched` React state hooks (search/page.tsx lines 14-17). -/
structure SearchState where
  query : String
  results : List SearchResult
  isLoading : Bool
  hasSearched : Bool
deriving DecidableEq

/-- Outcome of the GET /search fetch: `ok` carries `data.results` (possibly
absent, hence the Option, defaulted by `data.results || []`); `fail` covers a
thrown error and a non-OK status. -/
inductive SearchOutcome where
  | ok (results : Option (List SearchResult))
  | fail
deriving DecidableEq

/-- The `search` handler (search/page.tsx lines 19-38), given the outcome of
the backend call: guard on empty query, set `hasSearched`, store the results
on success, clear them in the catch block (the error is only logged to the
console), clear `isLoading` in the finally block. -/
def search (s : SearchState) (o : SearchOutcome) : SearchState :=
  if jsTrim s.query == "" then s
  else
    { query := s.query,
      results :=
        match o with
        | SearchOutcome.ok rs => rs.getD []
        | SearchOutcome.fail => [],
      isLoading := false,
      hasSearched := true }

/-- The four mutually exclusive views of the search page body. -/
inductive SearchView where
  | loadingSkeleton
  | resultList (rs : List SearchResult)
  | noResults
  | landing
deriving DecidableEq

/-- The view selection of the search page (search/page.tsx lines 96-174):
loading skeleton while `isLoading`, result list when `hasSearched` with
results, the No Results Found view when `hasSearched` with zero results,
landing view otherwise. -/
def renderSearch (s : SearchState) : SearchView :=
  if s.isLoading then SearchView.loadingSkeleton
  else if s.hasSearched then
    if 0 < s.results.length then SearchView.resultList s.results
    else SearchView.noResults
  else SearchView.landing

/- ---------------------------------------------------------------------------
highlightQuery (search/page.tsx lines 57-62)
--------------------------------------------------------------------------- -/

/-- The character class of the escaping replace in highlightQuery
(search/page.tsx line 60): every ECMAScript regular-expression
metacharacter. -/
def regexMetaChars : List Char :=
  ['.', '*', '+', '?', '^', '$', '\x7b', '\x7d', '(', ')', '|', '[', ']', '\\']

/-- The escaping pass `query.replace(/[.*+?^$\x7b\x7d()|[\]\\]/g, '\\$&')`
(search/page.tsx line 60): each metacharacter is replaced by a backslash
followed by itself. -/
def escapeRegExp : List Char → List Char
  | [] => []
  | c :: rest =>
      if regexMetaChars.contains c then '\\' :: c :: escapeRegExp rest
      else c :: escapeRegExp rest

/-- Parses a regular-expression pattern that is expected to denote a literal
string: a sequence of atoms, each either a backslash-escaped character or a
non-metacharacter.  Returns the denoted literal, or `none` where `new RegExp`
on such a sequence-of-literals pattern would fail or a metacharacter would
act as an operator. -/
def unescapeLiteral : List Char → Option (List Char)
  | [] => some []
  | c :: rest =>
      if c = '\\' then
        match rest with
        | [] => none
        | d :: rest2 => (unescapeLiteral rest2).map (fun t => d :: t)
      else if regexMetaChars.contains c then none
      else (unescapeLiteral rest).map (fun t => c :: t)

/-- Case-insensitive prefix test, modelling the regex flag `i`. -/
def startsWithCI : List Char → List Char → Bool
  | [], _ => true
  | _ :: _, [] => false
  | p :: ps, t :: ts => (p.toLower == t.toLower) && startsWithCI ps ts

/-- Opening tag inserted around each match (search/page.tsx line 61). -/
def markOpenText : List Char :=
  ("<mark className=" ++ "\"bg-yellow-200\"" ++ ">").data

/-- Closing tag inserted around each match (search/page.tsx line 61). -/
def markCloseText : List Char :=
  "</mark>".data

/-- Global case-insensitive literal replace, modelling
`text.replace(regex, '<mark ...>$1</mark>')` for the escaped (hence literal)
pattern with flags `gi`: scan left to right, wrap each match (the matched text
itself, preserving its case, stands for `$1`), continue after the match.
Fuel-driven for totality; `text.length` fuel suffices for a non-empty
pattern. -/
def highlightFuel : Nat → List Char → List Char → List Char
  | 0, t, _ => t
  | _ + 1, [], _ => []
  | n + 1, c :: rest, pat =>
      if startsWithCI pat (c :: rest) then
        markOpenText ++ (c :: rest).take pat.length ++ markCloseText
          ++ highlightFuel n ((c :: rest).drop pat.length) pat
      else c :: highlightFuel n rest pat

/-- The `highlightQuery` helper (search/page.tsx lines 57-62): return the text
unchanged for a whitespace-only query; otherwise build the regex from the
escaped query and wrap every match.  `none` models `new RegExp` throwing,
which is what would happen if the escaped pattern failed to parse as a
literal. -/
def highlightQuery (text query : String) : Option String :=
  if jsTrim query == "" then some text
  else
    match unescapeLiteral (escapeRegExp query.data) with
    | none => none
    | some lit => some (String.mk (highlightFuel text.data.length text.data lit))

/- ---------------------------------------------------------------------------
Backend endpoint surface
--------------------------------------------------------------------------- -/

/-- An HTTP call to the backend, identified by method and path (host
`localhost:8000` and query-string parameters elided). -/
structure BackendCall where
  method : String
  path : String
deriving DecidableEq

/-- POST /chat (page.tsx line 38). -/
def chatBackendCall : BackendCall := { method := "POST", path := "/chat" }

/-- GET /search (search/page.tsx line 26). -/
def searchBackendCall : BackendCall := { method := "GET", path := "/search" }

/-- GET /conversations (conversations/page.tsx line 25). -/
def conversationsBackendCall : BackendCall := { method := "GET", path := "/conversations" }

/-- Every backend call issued by the client surface: the three fetch calls in
page.tsx, search/page.tsx and conversations/page.tsx. -/
def clientBackendCalls : List BackendCall :=
  [chatBackendCall, searchBackendCall, conversationsBackendCall]

/-- The two public calls of the retrieval core named by the design
specification. -/
inductive CoreCall where
  | query
  | runIndex
deriving DecidableEq

/-- Modelled from the spec: the backend server implementation is absent from
the repository (src/server holds only a README), so the correspondence between
client endpoints and the core's public surface is taken from the
specification, which states that the Orchestrator's
`query(question, session_id, scope_filter)` and the Lifecycle Manager's
`run_index(mode)` are the entire public surface.  Of the client's endpoints
only POST /chat carries the Orchestrator's query call (question plus
conversation context, answering with answer and citations); no client endpoint
carries run_index, and GET /search and GET /conversations match neither
signature. -/
def corePublicCallOf (c : BackendCall) : Option CoreCall :=
  if c = chatBackendCall then some CoreCall.query else none

/- ---------------------------------------------------------------------------
Timestamp normalization (src/PRD.md, chat.db schema section)
--------------------------------------------------------------------------- -/

/-- The fixed offset between the archive's native epoch (2001-01-01, the Apple
epoch) and the Unix epoch, in seconds: the constant 978307200 of the PRD's
conversion formula.  The Unix representation of the source epoch's origin
instant is exactly this value. -/
def appleEpochOriginUnixSeconds : Nat := 978307200

/-- The PRD's chat.db date conversion
`datetime(message.date/1000000000 + 978307200, 'unixepoch')`: raw dates are
nanoseconds since the Apple epoch; integer-divide by 10^9 and add the fixed
offset to obtain Unix seconds. -/
def appleDateToUnixSeconds (d : Nat) : Nat :=
  d / 1000000000 + appleEpochOriginUnixSeconds

/- ---------------------------------------------------------------------------
Helper lemmas (shared)
--------------------------------------------------------------------------- -/

/-- When the guard `!input.trim() || isLoading` fires, a whole `sendMessage`
turn is the identity and issues no request. -/
theorem sendMessage_noop_of_guard (s : ChatState) (o : FetchOutcome)
    (h : (jsTrim s.input == "" || s.isLoading) = true) :
    sendMessage s o = (s, none) := by
  unfold sendMessage startSend
  simp [h]

/-- When the guard does not fire, a whole `sendMessage` turn appends the user
message and the assistant message and issues the request with the last ten
prior messages. -/
theorem sendMessage_eq_of_guard (s : ChatState) (o : FetchOutcome)
    (h : (jsTrim s.input == "" || s.isLoading) = false) :
    sendMessage s o =
      ({ messages := s.messages ++ [mkUserMessage (jsTrim s.input), assistantMessageOf o],
         input := "", isLoading := false },
       some { query := jsTrim s.input,
              conversation_history := s.messages.drop (s.messages.length - 10) }) := by
  unfold sendMessage startSend finishSend
  simp [h]

/-- The assistant message built from any outcome has the assistant role. -/
theorem assistantMessageOf_role (o : FetchOutcome) :
    (assistantMessageOf o).role = Role.assistant := by
  cases o <;> rfl

/-- Appending one user/assistant pair preserves the alternation check. -/
theorem alternatesFromUser_append_turn :
    ∀ l : List Role,
      alternatesFromUser (l ++ [Role.user, Role.assistant]) = alternatesFromUser l
  | [] => rfl
  | Role.user :: [] => rfl
  | Role.user :: Role.user :: _ => rfl
  | Role.user :: Role.assistant :: rest => by
      show alternatesFromUser (Role.user :: Role.assistant :: (rest ++ [Role.user, Role.assistant]))
        = alternatesFromUser (Role.user :: Role.assistant :: rest)
      rw [show alternatesFromUser (Role.user :: Role.assistant :: (rest ++ [Role.user, Role.assistant]))
            = alternatesFromUser (rest ++ [Role.user, Role.assistant]) from rfl,
          show alternatesFromUser (Role.user :: Role.assistant :: rest)
            = alternatesFromUser rest from rfl]
      exact alternatesFromUser_append_turn rest
  | Role.assistant :: _ => rfl

/-- One chat interaction either leaves the message roles unchanged (no-op
submission) or appends exactly one user/assistant pair; it always ends with
`isLoading` cleared, provided it started cleared. -/
theorem chatStep_roles (s : ChatState) (ev : String × FetchOutcome)
    (h : s.isLoading = false) :
    ((chatStep s ev).messages.map Message.role = s.messages.map Message.role
      ∨ (chatStep s ev).messages.map Message.role
          = s.messages.map Message.role ++ [Role.user, Role.assistant])
    ∧ (chatStep s ev).isLoading = false := by
  unfold chatStep
  by_cases hg : ((jsTrim ev.1 == "" || s.isLoading) = true)
  · rw [sendMessage_noop_of_guard _ ev.2 hg]
    exact ⟨Or.inl rfl, h⟩
  · have hg' : ((jsTrim ev.1 == "" || s.isLoading) = false) := by
      cases hb : (jsTrim ev.1 == "" || s.isLoading)
      · rfl
      · exact absurd hb hg
    rw [sendMessage_eq_of_guard _ ev.2 hg']
    refine ⟨Or.inr ?_, rfl⟩
    simp [mkUserMessage, assistantMessageOf_role]

/-- Session invariant: starting from any state with alternating roles and no
pending request, every sequence of interactions preserves both. -/
theorem chatSession_invariant (events : List (String × FetchOutcome)) :
    ∀ s : ChatState,
      alternatesFromUser (s.messages.map Message.role) = true →
      s.isLoading = false →
      alternatesFromUser ((events.foldl chatStep s).messages.map Message.role) = true
      ∧ (events.foldl chatStep s).isLoading = false := by
  induction events with
  | nil => exact fun s h1 h2 => ⟨h1, h2⟩
  | cons ev rest ih =>
      intro s h1 h2
      obtain ⟨hroles, hload⟩ := chatStep_roles s ev h2
      refine ih (chatStep s ev) ?_ hload
      cases hroles with
      | inl he => rw [he]; exact h1
      | inr he => rw [he, alternatesFromUser_append_turn]; exact h1

/- ---------------------------------------------------------------------------
Claim theorems
--------------------------------------------------------------------------- -/

/-- Claim C1, counterexample: the claim says a failed backend call leaves the
message list unchanged for that turn.  In the concrete state with no messages
and input "hi", a turn whose backend call fails leaves the message list
changed (the user message and a fixed error message were appended). -/
theorem c1_counterexample :
    ¬ ((sendMessage { messages := [], input := "hi", isLoading := false }
          FetchOutcome.fail).1.messages = ([] : List Message)) := by
  rw [sendMessage_eq_of_guard _ FetchOutcome.fail (by decide)]
  simp

/-- Claim C1, amended: when the backend call of a turn fails, the turn IS
recorded in the message list: the optimistic user message (the trimmed input)
stays, and an assistant message carrying the fixed error text is appended, so
the list grows by exactly two rather than being left unchanged. -/
theorem c1_amended_failure_appends_error_turn (s : ChatState)
    (h : (jsTrim s.input == "" || s.isLoading) = false) :
    (sendMessage s FetchOutcome.fail).1.messages
      = s.messages
        ++ [mkUserMessage (jsTrim s.input),
            { role := Role.assistant, content := chatErrorText, sources := none }] := by
  rw [sendMessage_eq_of_guard s FetchOutcome.fail h]
  rfl

/-- Witness for the amended C1 theorem at a concrete state. -/
theorem c1_amended_witness :
    ((jsTrim ("hi" : String) == "" || false) = false)
    ∧ (sendMessage { messages := [], input := "hi", isLoading := false }
          FetchOutcome.fail).1.messages
        = [mkUserMessage (jsTrim ("hi" : String)),
           { role := Role.assistant, content := chatErrorText, sources := none }] :=
  ⟨by decide,
   c1_amended_failure_appends_error_turn
     { messages := [], input := "hi", isLoading := false } (by decide)⟩

/-- Claim C3, counterexample: the claim says the generated answer reaches the
caller incrementally, token by token.  In a concrete turn whose backend answer
"two tokens" has more than one token, the observable states of the turn carry
assistant content [], [] and then the full answer at once: no state ever holds
a partial answer, so delivery is buffered, not incremental. -/
theorem c3_counterexample :
    (sendMessageTrace { messages := [], input := "question", isLoading := false }
        (FetchOutcome.ok ("two tokens" : String) none)).map
        (fun st => (st.messages.filter (fun m => m.role == Role.assistant)).map Message.content)
      = [[], [], ["two tokens"]] := by
  decide

/-- Claim C3, amended: the answer is buffered, not streamed: a successful turn
exposes exactly three observable states — the state before the call, the state
with only the user message appended while the fetch is pending, and the final
state in which the complete answer appears in a single update. -/
theorem c3_amended_buffered_delivery (s : ChatState) (resp : String)
    (srcs : Option (List Source))
    (h : (jsTrim s.input == "" || s.isLoading) = false) :
    sendMessageTrace s (FetchOutcome.ok resp srcs)
      = [s,
         { messages := s.messages ++ [mkUserMessage (jsTrim s.input)],
           input := "", isLoading := true },
         { messages := s.messages
             ++ [mkUserMessage (jsTrim s.input),
                 { role := Role.assistant, content := resp, sources := srcs }],
           input := "", isLoading := false }] := by
  unfold sendMessageTrace startSend finishSend
  simp [h, assistantMessageOf]

/-- Witness for the amended C3 theorem at a concrete state. -/
theorem c3_amended_witness :
    ((jsTrim ("q" : String) == "" || false) = false)
    ∧ sendMessageTrace { messages := [], input := "q", isLoading := false }
          (FetchOutcome.ok ("two tokens" : String) none)
        = [{ messages := [], input := "q", isLoading := false },
           { messages := [mkUserMessage (jsTrim ("q" : String))], input := "", isLoading := true },
           { messages := [mkUserMessage (jsTrim ("q" : String)),
               { role := Role.assistant, content := ("two tokens" : String), sources := none }],
             input := "", isLoading := false }] :=
  ⟨by decide,
   c3_amended_buffered_delivery { messages := [], input := "q", isLoading := false }
     ("two tokens" : String) none (by decide)⟩

/-- Claim C4: within a session at most one question is in flight: while the
pending flag set at submission is still set, submitting another question is a
no-op — it changes neither the component state (so not the message list) nor
issues a request — and the flag is set from submission until the turn's
response or error is fully handled. -/
theorem c4_one_question_in_flight (s : ChatState) (o : FetchOutcome) :
    (∀ r : ChatRequest, (startSend s).2 = some r → (startSend s).1.isLoading = true)
    ∧ (s.isLoading = true → sendMessage s o = (s, none)) := by
  constructor
  · intro r hr
    unfold startSend at hr ⊢
    by_cases hg : ((jsTrim s.input == "" || s.isLoading) = true)
    · rw [if_pos hg] at hr
      exact absurd hr (by simp)
    · rw [if_neg hg]
  · intro h
    exact sendMessage_noop_of_guard s o (by rw [h, Bool.or_true])

/-- Witness for C4 at a concrete loading state. -/
theorem c4_witness :
    ((({ messages := [], input := "next question", isLoading := true } : ChatState).isLoading
        = true)
      ∧ sendMessage { messages := [], input := "next question", isLoading := true }
            FetchOutcome.fail
          = ({ messages := [], input := "next question", isLoading := true }, none)) :=
  ⟨rfl,
   (c4_one_question_in_flight
      { messages := [], input := "next question", isLoading := true } FetchOutcome.fail).2 rfl⟩

/-- Claim C5: every issued chat request carries as conversation history exactly
the most recent prior messages up to the fixed bound ten: the window is a
suffix of the prior message list in original order, its length is the minimum
of ten and the list's length, and everything older is excluded (it is exactly
the drop of all but the last ten). -/
theorem c5_history_sliding_window (s : ChatState) (o : FetchOutcome) (r : ChatRequest)
    (h : (sendMessage s o).2 = some r) :
    r.conversation_history = s.messages.drop (s.messages.length - 10)
    ∧ s.messages.take (s.messages.length - 10) ++ r.conversation_history = s.messages
    ∧ r.conversation_history.length = min 10 s.messages.length := by
  by_cases hg : ((jsTrim s.input == "" || s.isLoading) = true)
  · rw [sendMessage_noop_of_guard s o hg] at h
    exact absurd h (by simp)
  · have hg' : ((jsTrim s.input == "" || s.isLoading) = false) := by
      cases hb : (jsTrim s.input == "" || s.isLoading)
      · rfl
      · exact absurd hb hg
    rw [sendMessage_eq_of_guard s o hg'] at h
    have hr : r = { query := jsTrim s.input,
                    conversation_history := s.messages.drop (s.messages.length - 10) } :=
      (Option.some_inj.mp h).symm
    subst hr
    refine ⟨rfl, List.take_append_drop _ _, ?_⟩
    rw [List.length_drop]
    omega

/-- Witness for C5 at a concrete state holding one prior message. -/
theorem c5_witness :
    ((sendMessage
        { messages := [mkUserMessage ("old" : String)], input := "hi", isLoading := false }
        FetchOutcome.fail).2
      = some { query := jsTrim ("hi" : String),
               conversation_history := [mkUserMessage ("old" : String)] })
    ∧ ([mkUserMessage ("old" : String)]
        = [mkUserMessage ("old" : String)].drop ([mkUserMessage ("old" : String)].length - 10)
      ∧ [mkUserMessage ("old" : String)].take ([mkUserMessage ("old" : String)].length - 10)
          ++ [mkUserMessage ("old" : String)] = [mkUserMessage ("old" : String)]
      ∧ [mkUserMessage ("old" : String)].length = min 10 [mkUserMessage ("old" : String)].length) :=
  ⟨by rw [sendMessage_eq_of_guard _ FetchOutcome.fail (by decide)]; rfl,
   c5_history_sliding_window
     { messages := [mkUserMessage ("old" : String)], input := "hi", isLoading := false }
     FetchOutcome.fail
     { query := jsTrim ("hi" : String),
       conversation_history := [mkUserMessage ("old" : String)] }
     (by rw [sendMessage_eq_of_guard _ FetchOutcome.fail (by decide)]; rfl)⟩

/-- Claim C9: every completed send grows the message list by exactly two
entries — the user message holding the trimmed input followed by the assistant
message (the server's answer or the fixed error text) — and consequently every
session starting from the empty list has strictly alternating roles user,
assistant, user, assistant. -/
theorem c9_turn_pairs_and_alternation :
    (∀ (s : ChatState) (o : FetchOutcome) (r : ChatRequest),
        (sendMessage s o).2 = some r →
        (sendMessage s o).1.messages
          = s.messages ++ [mkUserMessage (jsTrim s.input), assistantMessageOf o])
    ∧ (∀ events : List (String × FetchOutcome),
        alternatesFromUser ((chatSession events).messages.map Message.role) = true) := by
  constructor
  · intro s o r h
    by_cases hg : ((jsTrim s.input == "" || s.isLoading) = true)
    · rw [sendMessage_noop_of_guard s o hg] at h
      exact absurd h (by simp)
    · have hg' : ((jsTrim s.input == "" || s.isLoading) = false) := by
        cases hb : (jsTrim s.input == "" || s.isLoading)
        · rfl
        · exact absurd hb hg
      rw [sendMessage_eq_of_guard s o hg']
  · intro events
    exact (chatSession_invariant events initialChatState rfl rfl).1

/-- Witness for C9 at a concrete completed send. -/
theorem c9_witness :
    ((sendMessage { messages := [], input := "hi", isLoading := false }
        FetchOutcome.fail).2
      = some { query := jsTrim ("hi" : String), conversation_history := [] })
    ∧ (sendMessage { messages := [], input := "hi", isLoading := false }
          FetchOutcome.fail).1.messages
        = [mkUserMessage (jsTrim ("hi" : String)), assistantMessageOf FetchOutcome.fail] :=
  ⟨by rw [sendMessage_eq_of_guard _ FetchOutcome.fail (by decide)]; rfl,
   (c9_turn_pairs_and_alternation).1
     { messages := [], input := "hi", isLoading := false } FetchOutcome.fail
     { query := jsTrim ("hi" : String), conversation_history := [] }
     (by rw [sendMessage_eq_of_guard _ FetchOutcome.fail (by decide)]; rfl)⟩

/-- Claim C2, counterexample: the claim says a zero-candidate outcome and a
backend failure are never rendered identically.  From the concrete fresh state
with query "dinner", a search whose backend call fails renders exactly the
same view (No Results Found) as a search that succeeds with zero results. -/
theorem c2_counterexample :
    renderSearch (search { query := "dinner", results := [], isLoading := false,
                           hasSearched := false } SearchOutcome.fail)
      = renderSearch (search { query := "dinner", results := [], isLoading := false,
                               hasSearched := false } (SearchOutcome.ok (some [])))
    ∧ renderSearch (search { query := "dinner", results := [], isLoading := false,
                             hasSearched := false } SearchOutcome.fail)
      = SearchView.noResults := by
  constructor <;> rfl

/-- Claim C2, amended: a failed search call is NOT distinguishable from a
zero-candidate result in the rendered interface: the catch block clears the
results (logging the error only to the console), so failure leads to exactly
the same state as a legitimate empty result and both render the No Results
Found view. -/
theorem c2_amended_failure_renders_as_empty (s : SearchState)
    (h : (jsTrim s.query == "") = false) :
    search s SearchOutcome.fail = search s (SearchOutcome.ok (some []))
    ∧ renderSearch (search s SearchOutcome.fail) = SearchView.noResults := by
  unfold search renderSearch
  simp [h]

/-- Witness for the amended C2 theorem at a concrete state. -/
theorem c2_amended_witness :
    ((jsTrim ("dinner" : String) == "") = false)
    ∧ (search { query := "dinner", results := [], isLoading := false, hasSearched := false }
          SearchOutcome.fail
        = search { query := "dinner", results := [], isLoading := false, hasSearched := false }
            (SearchOutcome.ok (some []))
      ∧ renderSearch
          (search { query := "dinner", results := [], isLoading := false, hasSearched := false }
            SearchOutcome.fail)
          = SearchView.noResults) :=
  ⟨by decide,
   c2_amended_failure_renders_as_empty
     { query := "dinner", results := [], isLoading := false, hasSearched := false } (by decide)⟩

/-- Claim C6: an assistant message with absent or empty sources renders no
citation block, and a message with at least one source renders exactly one
citation line per source, each displaying exactly the sender, the date and the
conversation of that source. -/
theorem c6_citation_rendering (m : Message) :
    (m.sources = none → renderSources m = none)
    ∧ (m.sources = some [] → renderSources m = none)
    ∧ (∀ srcs : List Source, m.sources = some srcs → srcs ≠ [] →
        renderSources m = some (srcs.map renderedCitation)) := by
  refine ⟨fun h => ?_, fun h => ?_, fun srcs h hne => ?_⟩
  · simp [renderSources, h]
  · simp [renderSources, h]
  · simp [renderSources, h, List.length_pos.mpr hne]

/-- Witness for C6 at a concrete message with one source. -/
theorem c6_witness :
    (({ role := Role.assistant, content := "a",
        sources := some [{ sender := "Sarah", date := "2024-01-01", conversation := "Sarah" }] }
        : Message).sources
      = some [{ sender := "Sarah", date := "2024-01-01", conversation := "Sarah" }])
    ∧ ([{ sender := "Sarah", date := "2024-01-01", conversation := "Sarah" }]
        ≠ ([] : List Source))
    ∧ renderSources
        { role := Role.assistant, content := "a",
          sources := some [{ sender := "Sarah", date := "2024-01-01", conversation := "Sarah" }] }
        = some ([{ sender := "Sarah", date := "2024-01-01", conversation := "Sarah" }].map
            renderedCitation) :=
  ⟨rfl, by decide,
   (c6_citation_rendering
       { role := Role.assistant, content := "a",
         sources := some [{ sender := "Sarah", date := "2024-01-01", conversation := "Sarah" }] }).2.2
     [{ sender := "Sarah", date := "2024-01-01", conversation := "Sarah" }] rfl (by decide)⟩

/-- Claim C7, counterexample: the claim says every backend call issued by the
client surface targets one of the core's two public calls (query or
run_index).  The search page's GET /search is issued by the client surface yet
corresponds to neither public call. -/
theorem c7_counterexample :
    searchBackendCall ∈ clientBackendCalls
    ∧ corePublicCallOf searchBackendCall = none := by
  constructor
  · exact List.mem_cons_of_mem _ (List.mem_cons_self _ _)
  · rfl

/-- Claim C7, amended: of the three backend calls issued by the client surface
only POST /chat targets a core public call (the Orchestrator's query); the
remaining calls GET /search and GET /conversations target endpoints outside
the two-call public surface, and no client call targets run_index. -/
theorem c7_amended_endpoint_surface :
    corePublicCallOf chatBackendCall = some CoreCall.query
    ∧ clientBackendCalls.map corePublicCallOf = [some CoreCall.query, none, none]
    ∧ ∀ c : BackendCall, c ∈ clientBackendCalls →
        corePublicCallOf c ≠ some CoreCall.runIndex := by
  refine ⟨rfl, rfl, ?_⟩
  intro c hc
  fin_cases hc <;> decide

/-- Witness for the amended C7 theorem at a concrete client call. -/
theorem c7_amended_witness :
    conversationsBackendCall ∈ clientBackendCalls
    ∧ corePublicCallOf conversationsBackendCall ≠ some CoreCall.runIndex :=
  ⟨by decide,
   (c7_amended_endpoint_surface).2.2 conversationsBackendCall (by decide)⟩

/-- Claim C8: timestamp normalization is exact integer arithmetic with the
fixed offset 978307200: a raw archive timestamp of 0 normalizes exactly to the
Unix representation of the source epoch's origin instant with zero drift, and
every whole-second raw timestamp converts exactly, each time field through the
same single function. -/
theorem c8_timestamp_normalization :
    appleDateToUnixSeconds 0 = appleEpochOriginUnixSeconds
    ∧ ∀ s : Nat, appleDateToUnixSeconds (s * 1000000000) = s + appleEpochOriginUnixSeconds := by
  constructor
  · rfl
  · intro s
    unfold appleDateToUnixSeconds
    rw [Nat.mul_div_cancel s (by norm_num)]

/-- The escaped pattern always parses back as the literal query: every
metacharacter of the query is escaped, no atom is left for the regex engine to
interpret, and the denoted literal is the query itself. -/
theorem unescapeLiteral_escapeRegExp :
    ∀ q : List Char, unescapeLiteral (escapeRegExp q) = some q := by
  intro q
  induction q with
  | nil => rfl
  | cons c rest ih =>
      by_cases hm : c ∈ regexMetaChars
      · simp [escapeRegExp, unescapeLiteral, hm, ih]
      · have hne : ¬ (c = '\\') := by
          intro he
          rw [he] at hm
          exact hm (by decide)
        have hesc : escapeRegExp (c :: rest) = c :: escapeRegExp rest := by
          rw [escapeRegExp.eq_def]
          dsimp only
          rw [if_neg (by simpa using hm)]
        rw [hesc, unescapeLiteral.eq_def]
        dsimp only
        rw [if_neg hne, if_neg (by simpa using hm), ih]
        rfl

/-- Claim C10: highlightQuery escapes every regular-expression metacharacter of
the query (the escaped pattern parses back as exactly the literal query), so
the regex construction never throws for any input (the result is always
`some`), and the text is returned unchanged whenever the query is empty or
whitespace-only. -/
theorem c10_highlight_query_safe (text query : String) :
    unescapeLiteral (escapeRegExp query.data) = some query.data
    ∧ (highlightQuery text query).isSome = true
    ∧ ((jsTrim query == "") = true → highlightQuery text query = some text) := by
  refine ⟨unescapeLiteral_escapeRegExp query.data, ?_, ?_⟩
  · unfold highlightQuery
    by_cases h : ((jsTrim query == "") = true)
    · rw [if_pos h]
      rfl
    · rw [if_neg h, unescapeLiteral_escapeRegExp query.data]
      rfl
  · intro h
    unfold highlightQuery
    rw [if_pos h]

/-- Witness for C10 at a whitespace-only query. -/
theorem c10_witness :
    ((jsTrim (" " : String) == "") = true)
    ∧ highlightQuery ("hello, how are you?" : String) (" " : String)
        = some ("hello, how are you?" : String) :=
  ⟨by decide,
   (c10_highlight_query_safe ("hello, how are you?" : String) (" " : String)).2.2 (by decide)⟩

end IMessageWeb
